import Mathlib

/-!
Shallow embedding of the SCMS-Frontend run-lifecycle client
(src/src/app/page.tsx).  The repository holds two variants of the
dashboard component separated in the file: a *pull* variant
(per-resource GET reconciliation, lines 51-321) and a *push* variant
(single combined payload from GET /run, lines 378-570).  Both are
embedded below as explicit state-transition functions; stream callbacks
become a step function over events, and their observable side effects
(console warnings, connection close, reconciliation calls, log appends)
are recorded as an action trace.
-/

/-- Entry of the activity-log buffer (type StreamLog, lines 11-14). -/
structure StreamLog where
  message : String
  timestamp : String
deriving DecidableEq, Repr

/-- Inventory row (interface InventoryItem, lines 16-23). -/
structure InventoryItem where
  item_id : String
  name : String
  stock_level : Nat
  reorder_threshold : Nat
  supplier : String
  last_updated : String
deriving DecidableEq, Repr

/-- Purchase-order row (interface PurchaseOrder, lines 25-33). -/
structure PurchaseOrder where
  order_id : String
  item_id : String
  quantity : Nat
  supplier : String
  order_date : String
  status : String
  item_name : String
deriving DecidableEq, Repr

/-- Restock-plan row (interface RestockPlan, lines 35-42). -/
structure RestockPlan where
  order_id : String
  item_id : String
  supplier : String
  logistics_partner : String
  estimated_arrival : String
  delivery_method : String
deriving DecidableEq, Repr

/-- SLA-violation row (interface SLAViolation, lines 44-49). -/
structure SLAViolation where
  order_id : String
  supplier : String
  reason : String
  reported_on : String
deriving DecidableEq, Repr

/-- Metric row (interface Metric, push variant lines 371-376). -/
structure Metric where
  name : String
  value : Nat
  unit : String
  description : String
deriving DecidableEq, Repr

/-- Outcome of one GET round trip as the client observes it:
`ok body` means the promise chain `fetch(...)` then `.json()` resolved,
with `body = none` modelling a JSON `null` (or otherwise falsy) decoded
body; `failed msg` means the promise rejected (network error, malformed
payload), which sends control to the surrounding `catch`. -/
inductive FetchOutcome (α : Type) where
  | ok (body : Option (List α))
  | failed (msg : String)
deriving DecidableEq, Repr

/-- True exactly when the round trip rejected. -/
def FetchOutcome.isFailed : FetchOutcome α → Bool
  | .ok _ => false
  | .failed _ => true

/-- Observable side effects of the run-lifecycle callbacks, in the order
the code performs them. -/
inductive Effect where
  | appendLog (entry : StreamLog)
  | warn
  | closeConnection
  | reconcile
deriving DecidableEq, Repr

/-- Models JavaScript String.prototype.trim as applied to inbound
payloads (`event.data.trim()`): drop whitespace characters from both
ends of the string. -/
def jsTrim (s : String) : String :=
  ⟨((s.data.dropWhile Char.isWhitespace).reverse.dropWhile Char.isWhitespace).reverse⟩

namespace Pull

/-- Component state of the pull variant (useState hooks, lines 52-56),
plus `openConnections`, the number of EventSource connections the
component has opened and not closed. -/
structure State where
  inventory : List InventoryItem
  purchaseOrders : List PurchaseOrder
  slaViolations : List SLAViolation
  activityLogs : List StreamLog
  isRunning : Bool
  openConnections : Nat
deriving DecidableEq, Repr

/-- Embeds `fetchDashboardData` (lines 59-79).  The three GETs are
issued with `Promise.all`, so if any of the three rejects the whole
`await` throws, the `catch` logs one warning (`console.error`), and no
setter runs; only when all three resolve are the three slots assigned
`data || []`.  Returns the new state and the number of warnings
reported. -/
def fetchDashboardData (s : State) (invRes : FetchOutcome InventoryItem)
    (poRes : FetchOutcome PurchaseOrder) (slaRes : FetchOutcome SLAViolation) :
    State × Nat :=
  match invRes, poRes, slaRes with
  | .ok inv, .ok po, .ok sla =>
      ({ s with
          inventory := inv.getD []
          purchaseOrders := po.getD []
          slaViolations := sla.getD [] }, 0)
  | _, _, _ => (s, 1)

/-- Embeds `runSystem` (lines 81-113) up to registering the callbacks:
it unconditionally sets `isRunning`, clears the log buffer, and opens a
new EventSource connection.  There is no guard on `isRunning` inside
the function. -/
def runSystem (s : State) : State :=
  { s with
      isRunning := true
      activityLogs := []
      openConnections := s.openConnections + 1 }

/-- Embeds the Run button (line 150): `onClick` invokes `runSystem` but
the button carries `disabled` bound to `isRunning`, so a click while a
run is in progress dispatches nothing. -/
def clickRunButton (s : State) : State :=
  if s.isRunning then s else runSystem s

/-- Embeds the `onmessage` callback (lines 87-95): append
`(jsTrim payload, now)` to the log buffer via a functional update. -/
def onmessage (s : State) (payload : String) (now : String) : State :=
  { s with activityLogs := s.activityLogs ++ [⟨jsTrim payload, now⟩] }

/-- Events the open stream can deliver to the pull variant. -/
inductive Event where
  | message (payload : String) (time : String)
  | endEvent
  | transportError
deriving DecidableEq, Repr

/-- One callback dispatch of the pull variant, returning the new state
and the ordered list of observable effects: `onmessage` (lines 87-95)
appends a log entry; the `end` listener (lines 108-112) closes the
connection, clears `isRunning` and calls `fetchDashboardData`;
`onerror` (lines 97-102) logs a warning, closes the connection, clears
`isRunning` and calls `fetchDashboardData`. -/
def step (s : State) (e : Event) : State × List Effect :=
  match e with
  | .message p t =>
      (onmessage s p t, [Effect.appendLog ⟨jsTrim p, t⟩])
  | .endEvent =>
      ({ s with isRunning := false, openConnections := s.openConnections - 1 },
       [Effect.closeConnection, Effect.reconcile])
  | .transportError =>
      ({ s with isRunning := false, openConnections := s.openConnections - 1 },
       [Effect.warn, Effect.closeConnection, Effect.reconcile])

/-- Process a sequence of stream events, accumulating the action trace. -/
def run : State → List Event → State × List Effect
  | s, [] => (s, [])
  | s, e :: rest =>
      ((run (step s e).1 rest).1, (step s e).2 ++ (run (step s e).1 rest).2)

/-- Deliver a list of (payload, receipt-time) messages through
`onmessage`. -/
def receiveAll : State → List (String × String) → State
  | s, [] => s
  | s, m :: rest => receiveAll (onmessage s m.1 m.2) rest

/-- Embeds the derived value `lowStockItems` (line 140): the inventory
filtered by `stock_level < reorder_threshold`, recomputed from the
current snapshot on each render. -/
def lowStockItems (inventory : List InventoryItem) : List InventoryItem :=
  inventory.filter (fun item => item.stock_level < item.reorder_threshold)

end Pull

namespace Push

/-- Component state of the push variant (useState hooks, lines
379-385), plus `openConnections`.  Each data slot is an `Option`: the
hooks initialise the slots to `some []`, and a setter invoked with a
missing payload field (JavaScript `undefined`) leaves the slot `none`. -/
structure State where
  inventory : Option (List InventoryItem)
  purchaseOrders : Option (List PurchaseOrder)
  restockPlan : Option (List RestockPlan)
  slaViolations : Option (List SLAViolation)
  metrics : Option (List Metric)
  activityLogs : List StreamLog
  isRunning : Bool
  openConnections : Nat
deriving DecidableEq, Repr

/-- Decoded body of GET /run (lines 409-416): each field is the
corresponding property of the JSON object, `none` when the property is
absent (reads as `undefined`). -/
structure RunPayload where
  inventory_data : Option (List InventoryItem)
  purchase_orders : Option (List PurchaseOrder)
  restock_plan : Option (List RestockPlan)
  sla_violations : Option (List SLAViolation)
  metrics : Option (List Metric)
deriving DecidableEq, Repr

/-- Embeds the five setter calls on the /run response (lines 412-416):
each slot is assigned the corresponding payload field unconditionally;
no field is checked before any assignment happens. -/
def applyRunPayload (s : State) (d : RunPayload) : State :=
  { s with
      inventory := d.inventory_data
      purchaseOrders := d.purchase_orders
      restockPlan := d.restock_plan
      slaViolations := d.sla_violations
      metrics := d.metrics }

/-- Embeds `runSystem` of the push variant (lines 388-392):
unconditionally set `isRunning`, clear the log buffer, open a new
EventSource connection.  The GET /run issued on line 409 is modelled as
the later `Event.runResponse` arrival. -/
def runSystem (s : State) : State :=
  { s with
      isRunning := true
      activityLogs := []
      openConnections := s.openConnections + 1 }

/-- Events the push variant can receive: stream messages, the `end`
event, `onerror`, and the arrival of the GET /run response issued at
start. -/
inductive Event where
  | message (payload : String) (time : String)
  | endEvent
  | transportError
  | runResponse (d : RunPayload)
deriving DecidableEq, Repr

/-- One callback dispatch of the push variant: `onmessage` (lines
394-402) appends a log entry; no listener is registered for the `end`
event, so it is dropped by the EventSource with no effect; `onerror`
(lines 404-407) closes the connection and clears `isRunning` without
any reconciliation; the /run response applies the combined payload
(lines 412-416). -/
def step (s : State) (e : Event) : State × List Effect :=
  match e with
  | .message p t =>
      ({ s with activityLogs := s.activityLogs ++ [⟨jsTrim p, t⟩] },
       [Effect.appendLog ⟨jsTrim p, t⟩])
  | .endEvent => (s, [])
  | .transportError =>
      ({ s with isRunning := false, openConnections := s.openConnections - 1 },
       [Effect.closeConnection])
  | .runResponse d => (applyRunPayload s d, [Effect.reconcile])

/-- Process a sequence of events, accumulating the action trace. -/
def run : State → List Event → State × List Effect
  | s, [] => (s, [])
  | s, e :: rest =>
      ((run (step s e).1 rest).1, (step s e).2 ++ (run (step s e).1 rest).2)

end Push

/-- True when no `reconcile` effect occurs in the trace before the
first `closeConnection` (the effect that accompanies every terminal
transition): the ordering discipline of spec section 5. -/
def noReconcileBeforeClose : List Effect → Bool
  | [] => true
  | Effect.reconcile :: _ => false
  | Effect.closeConnection :: _ => true
  | _ :: rest => noReconcileBeforeClose rest

/-- Concrete inventory row: stock 5 below threshold 10 (low stock). -/
def itemA : InventoryItem :=
  ⟨"ITM-1", "Bolts", 5, 10, "Acme", "2025-01-01"⟩

/-- Concrete inventory row: stock 20 above threshold 5. -/
def itemB : InventoryItem :=
  ⟨"ITM-2", "Nuts", 20, 5, "Acme", "2025-01-02"⟩

/-- Concrete purchase order. -/
def poA : PurchaseOrder :=
  ⟨"PO-1001", "ITM-1", 40, "Acme", "2025-01-03", "pending", "Bolts"⟩

/-- Concrete SLA violation. -/
def slaA : SLAViolation :=
  ⟨"PO-0999", "Acme", "late delivery", "2025-01-02"⟩

/-- Concrete log entry. -/
def logA : StreamLog :=
  ⟨"Checking inventory levels...", "10:00:00"⟩

/-- Pull-variant state holding a non-empty prior snapshot, not running. -/
def pullSnapshot : Pull.State :=
  ⟨[itemA], [poA], [slaA], [logA], false, 0⟩

/-- Pull-variant state mid-run: one open connection, one buffered log. -/
def pullRunning : Pull.State :=
  ⟨[itemA], [poA], [slaA], [logA], true, 1⟩

/-- Push-variant state at mount: every slot at its initial `some []`. -/
def pushIdle : Push.State :=
  ⟨some [], some [], some [], some [], some [], [], false, 0⟩

/-- Push-variant state mid-run: one open connection, one buffered log. -/
def pushRunning : Push.State :=
  ⟨some [], some [], some [], some [], some [], [logA], true, 1⟩

/-- A /run payload carrying every expected field. -/
def payloadFull : Push.RunPayload :=
  ⟨some [itemB], some [poA], some [], some [slaA], some []⟩

/-- A /run payload missing the `metrics` field. -/
def payloadNoMetrics : Push.RunPayload :=
  ⟨some [itemB], some [poA], some [], some [slaA], none⟩

/-- The log buffer after delivering a list of messages is exactly the
prior buffer extended by one trimmed, timestamped entry per message, in
arrival order. -/
theorem receiveAll_logs (msgs : List (String × String)) (s : Pull.State) :
    (Pull.receiveAll s msgs).activityLogs =
      s.activityLogs ++ msgs.map (fun m => ⟨jsTrim m.1, m.2⟩) := by
  induction msgs generalizing s with
  | nil => simp [Pull.receiveAll]
  | cons m rest ih =>
      simp [Pull.receiveAll, Pull.onmessage, ih]

/-- Concatenating two traces that each keep every `reconcile` behind a
`closeConnection` yields a trace doing the same. -/
theorem noReconcileBeforeClose_append (l₁ l₂ : List Effect)
    (h₁ : noReconcileBeforeClose l₁ = true)
    (h₂ : noReconcileBeforeClose l₂ = true) :
    noReconcileBeforeClose (l₁ ++ l₂) = true := by
  induction l₁ with
  | nil => simpa using h₂
  | cons a t ih =>
      cases a with
      | appendLog e =>
          simp only [noReconcileBeforeClose, List.cons_append] at h₁ ⊢
          exact ih h₁
      | warn =>
          simp only [noReconcileBeforeClose, List.cons_append] at h₁ ⊢
          exact ih h₁
      | closeConnection => simp [noReconcileBeforeClose]
      | reconcile => simp [noReconcileBeforeClose] at h₁

/-- Every single pull-variant callback emits its `reconcile` effects
only behind a `closeConnection`. -/
theorem pull_step_effects_ok (s : Pull.State) (e : Pull.Event) :
    noReconcileBeforeClose (Pull.step s e).2 = true := by
  cases e <;> simp [Pull.step, noReconcileBeforeClose]

/-- Claim C1 is false as stated: in a pull reconciliation where exactly
one GET fails (here /sla-violations, while /inventory and
/purchase-orders succeed with fresh data), the inventory slot is NOT
updated from its successful response — it keeps the previous snapshot
`[itemA]` rather than receiving `[itemB]`. -/
theorem c1_one_failure_counterexample :
    (Pull.fetchDashboardData pullSnapshot (FetchOutcome.ok (some [itemB]))
        (FetchOutcome.ok (some [poA])) (FetchOutcome.failed "500")).1.inventory
      = [itemA] ∧ itemA ≠ itemB :=
  ⟨rfl, by decide⟩

/-- Claim C1 (amended): for every execution of fetchDashboardData in
which at least one of the three resource GETs fails, reconciliation is
all-or-nothing — no store slot is updated (all three resources keep
their previous snapshot, so the state is returned unchanged), and
exactly one warning is reported; a single failure blocks the updates of
the other two resources. -/
theorem c1_fetch_all_or_nothing (s : Pull.State)
    (invRes : FetchOutcome InventoryItem) (poRes : FetchOutcome PurchaseOrder)
    (slaRes : FetchOutcome SLAViolation)
    (h : invRes.isFailed = true ∨ poRes.isFailed = true ∨ slaRes.isFailed = true) :
    Pull.fetchDashboardData s invRes poRes slaRes = (s, 1) := by
  cases invRes <;> cases poRes <;> cases slaRes <;>
    simp_all [Pull.fetchDashboardData, FetchOutcome.isFailed]

/-- Witness for C1 (amended) at a concrete input: the SLA GET fails,
the state is returned untouched with one warning. -/
theorem c1_fetch_all_or_nothing_witness :
    (FetchOutcome.failed "500" : FetchOutcome SLAViolation).isFailed = true ∧
    Pull.fetchDashboardData pullSnapshot (FetchOutcome.ok (some [itemB]))
        (FetchOutcome.ok (some [poA])) (FetchOutcome.failed "500")
      = (pullSnapshot, 1) :=
  ⟨rfl, c1_fetch_all_or_nothing pullSnapshot (FetchOutcome.ok (some [itemB]))
      (FetchOutcome.ok (some [poA])) (FetchOutcome.failed "500")
      (Or.inr (Or.inr rfl))⟩

/-- Claim C2 is false as stated: invoking runSystem itself while a run
is already Running is not a no-op — it clears the non-empty log buffer
and opens a second connection. -/
theorem c2_runSystem_unguarded_counterexample :
    pullRunning.isRunning = true ∧
    Pull.runSystem pullRunning ≠ pullRunning ∧
    (Pull.runSystem pullRunning).activityLogs = [] ∧
    pullRunning.activityLogs ≠ [] ∧
    (Pull.runSystem pullRunning).openConnections = 2 := by
  decide

/-- Claim C2 (amended): the only re-entrancy guard is the UI: the Run
button carries disabled bound to isRunning, so a click while a run is
Running dispatches nothing and leaves all state unchanged — the
runSystem function itself is unguarded and, if invoked directly while
Running, clears the log buffer and opens a second connection. -/
theorem c2_button_click_noop_while_running (s : Pull.State)
    (h : s.isRunning = true) : Pull.clickRunButton s = s := by
  simp [Pull.clickRunButton, h]

/-- Witness for C2 (amended) at a concrete Running state. -/
theorem c2_button_click_noop_while_running_witness :
    pullRunning.isRunning = true ∧ Pull.clickRunButton pullRunning = pullRunning :=
  ⟨rfl, c2_button_click_noop_while_running pullRunning rfl⟩

/-- Claim C3 is false as stated: in the push variant no listener is
registered for the end event, so on its delivery the connection stays
open, the status remains Running, and no reconciliation is invoked. -/
theorem c3_push_end_ignored_counterexample :
    pushRunning.isRunning = true ∧
    Push.step pushRunning Push.Event.endEvent = (pushRunning, []) ∧
    (Push.step pushRunning Push.Event.endEvent).1.isRunning = true ∧
    List.count Effect.reconcile (Push.step pushRunning Push.Event.endEvent).2 = 0 := by
  decide

/-- Claim C3 (amended): in the pull variant, delivery of the end event
closes the connection, clears isRunning (Running to Settled) and
invokes fetchDashboardData exactly once; the push variant registers no
end listener, so the end event leaves the state unchanged and triggers
nothing — its combined /run payload is applied on response arrival,
independent of the stream. -/
theorem c3_end_event_behavior :
    (∀ s : Pull.State,
        (Pull.step s Pull.Event.endEvent).1.isRunning = false ∧
        (Pull.step s Pull.Event.endEvent).1.openConnections
          = s.openConnections - 1 ∧
        (Pull.step s Pull.Event.endEvent).2
          = [Effect.closeConnection, Effect.reconcile] ∧
        List.count Effect.reconcile (Pull.step s Pull.Event.endEvent).2 = 1) ∧
    (∀ t : Push.State, Push.step t Push.Event.endEvent = (t, [])) := by
  refine ⟨fun s => ⟨rfl, rfl, rfl, ?_⟩, fun t => rfl⟩
  show List.count Effect.reconcile [Effect.closeConnection, Effect.reconcile] = 1
  decide

/-- Claim C5 is false as stated: in the push variant the onerror
handler closes the connection and clears isRunning but triggers no
reconciliation at all. -/
theorem c5_push_error_no_reconcile_counterexample :
    pushRunning.isRunning = true ∧
    (Push.step pushRunning Push.Event.transportError).2
      = [Effect.closeConnection] ∧
    List.count Effect.reconcile
      (Push.step pushRunning Push.Event.transportError).2 = 0 := by
  decide

/-- Claim C5 (amended): on a transport error, in the pull variant the
session logs a warning, closes the connection, clears isRunning
(Running to Error) and invokes fetchDashboardData exactly once; in the
push variant the error handler only closes the connection and clears
isRunning, invoking no reconciliation (the /run payload was requested
at start, independent of the error). -/
theorem c5_transport_error_behavior :
    (∀ s : Pull.State,
        (Pull.step s Pull.Event.transportError).1.isRunning = false ∧
        (Pull.step s Pull.Event.transportError).1.openConnections
          = s.openConnections - 1 ∧
        (Pull.step s Pull.Event.transportError).2
          = [Effect.warn, Effect.closeConnection, Effect.reconcile] ∧
        List.count Effect.reconcile
          (Pull.step s Pull.Event.transportError).2 = 1) ∧
    (∀ t : Push.State,
        (Push.step t Push.Event.transportError).1.isRunning = false ∧
        (Push.step t Push.Event.transportError).1.openConnections
          = t.openConnections - 1 ∧
        (Push.step t Push.Event.transportError).2 = [Effect.closeConnection] ∧
        List.count Effect.reconcile
          (Push.step t Push.Event.transportError).2 = 0) := by
  constructor
  · intro s
    refine ⟨rfl, rfl, rfl, ?_⟩
    show List.count Effect.reconcile
      [Effect.warn, Effect.closeConnection, Effect.reconcile] = 1
    decide
  · intro t
    refine ⟨rfl, rfl, rfl, ?_⟩
    show List.count Effect.reconcile [Effect.closeConnection] = 0
    decide

/-- Claim C4 is false as stated: given a /run payload missing the
metrics field, the replacement is not rejected — the inventory slot is
modified away from its pre-call snapshot, and the metrics slot is set
to undefined (none) rather than retained. -/
theorem c4_replace_not_atomic_counterexample :
    payloadNoMetrics.metrics = none ∧
    (Push.applyRunPayload pushIdle payloadNoMetrics).inventory
      ≠ pushIdle.inventory ∧
    (Push.applyRunPayload pushIdle payloadNoMetrics).metrics
      ≠ pushIdle.metrics := by
  decide

/-- Claim C4 (amended): the application of the /run payload is
unconditional, not atomic: even when the payload is missing the metrics
field, every slot is still replaced by the corresponding payload field,
with the missing field leaving its slot undefined (none); no rejection
or retention of the pre-call snapshot occurs. -/
theorem c4_apply_payload_unconditional (s : Push.State) (d : Push.RunPayload)
    (h : d.metrics = none) :
    (Push.applyRunPayload s d).metrics = none ∧
    (Push.applyRunPayload s d).inventory = d.inventory_data ∧
    (Push.applyRunPayload s d).purchaseOrders = d.purchase_orders ∧
    (Push.applyRunPayload s d).restockPlan = d.restock_plan ∧
    (Push.applyRunPayload s d).slaViolations = d.sla_violations := by
  simp [Push.applyRunPayload, h]

/-- Witness for C4 (amended) at a concrete payload missing metrics. -/
theorem c4_apply_payload_unconditional_witness :
    payloadNoMetrics.metrics = none ∧
    ((Push.applyRunPayload pushIdle payloadNoMetrics).metrics = none ∧
     (Push.applyRunPayload pushIdle payloadNoMetrics).inventory
       = payloadNoMetrics.inventory_data ∧
     (Push.applyRunPayload pushIdle payloadNoMetrics).purchaseOrders
       = payloadNoMetrics.purchase_orders ∧
     (Push.applyRunPayload pushIdle payloadNoMetrics).restockPlan
       = payloadNoMetrics.restock_plan ∧
     (Push.applyRunPayload pushIdle payloadNoMetrics).slaViolations
       = payloadNoMetrics.sla_violations) :=
  ⟨rfl, c4_apply_payload_unconditional pushIdle payloadNoMetrics rfl⟩

/-- Claim C6 is false as stated: in the push variant the /run request
is issued at start, so its payload can be applied while the run is
still Running — here the reconcile effect precedes the terminal
transition (the closeConnection of the later transport error). -/
theorem c6_push_early_reconcile_counterexample :
    pushRunning.isRunning = true ∧
    (Push.run pushRunning
        [Push.Event.runResponse payloadFull, Push.Event.transportError]).2
      = [Effect.reconcile, Effect.closeConnection] ∧
    noReconcileBeforeClose
      (Push.run pushRunning
        [Push.Event.runResponse payloadFull, Push.Event.transportError]).2
      = false := by
  decide

/-- Claim C6 (amended): in the pull variant, over every event sequence
no reconciliation effect is ordered before the connection-close that
accompanies the terminal transition (end or error); the push variant
issues the /run request at start, so its payload may be applied before
any terminal event. -/
theorem c6_pull_no_reconcile_before_close (s : Pull.State)
    (es : List Pull.Event) :
    noReconcileBeforeClose (Pull.run s es).2 = true := by
  induction es generalizing s with
  | nil => simp [Pull.run, noReconcileBeforeClose]
  | cons e rest ih =>
      simp only [Pull.run]
      exact noReconcileBeforeClose_append _ _ (pull_step_effects_ok s e)
        (ih (Pull.step s e).1)

/-- Claim C7: every start clears the log buffer before any new message
is appended, in both variants; after start, receive "a", start,
receive "b" the buffer holds exactly the single entry for "b". -/
theorem c7_start_clears_logs :
    (∀ s : Pull.State, (Pull.runSystem s).activityLogs = []) ∧
    (∀ t : Push.State, (Push.runSystem t).activityLogs = []) ∧
    (∀ (s : Pull.State) (t₁ t₂ : String),
        (Pull.onmessage
            (Pull.runSystem (Pull.onmessage (Pull.runSystem s) "a" t₁))
            "b" t₂).activityLogs
          = [⟨"b", t₂⟩]) := by
  have hb : jsTrim "b" = "b" := by decide
  exact ⟨fun s => rfl, fun t => rfl, fun s t₁ t₂ => by
    simp [Pull.runSystem, Pull.onmessage, hb]⟩

/-- Claim C8: delivering N stream messages after a run start (with no
end or error event) yields a log buffer that is exactly the list of
trimmed, timestamped entries in arrival order — length N, nothing
dropped, reordered, deduplicated, or mutated after append. -/
theorem c8_messages_append_in_order (s : Pull.State)
    (msgs : List (String × String)) :
    (Pull.receiveAll (Pull.runSystem s) msgs).activityLogs
      = msgs.map (fun m => ⟨jsTrim m.1, m.2⟩) ∧
    (Pull.receiveAll (Pull.runSystem s) msgs).activityLogs.length
      = msgs.length := by
  have h1 : (Pull.receiveAll (Pull.runSystem s) msgs).activityLogs
      = msgs.map (fun m => ⟨jsTrim m.1, m.2⟩) := by
    simpa [Pull.runSystem] using receiveAll_logs msgs (Pull.runSystem s)
  exact ⟨h1, by simp [h1]⟩

/-- Claim C9: the low-stock view is derived, not stored: its size
always equals the count of inventory rows with stock_level below
reorder_threshold, and on the spec example inventory (stock 5 with
threshold 10, stock 20 with threshold 5) it equals 1. -/
theorem c9_low_stock_derived :
    (∀ inventory : List InventoryItem,
        (Pull.lowStockItems inventory).length =
          inventory.countP
            (fun item => item.stock_level < item.reorder_threshold)) ∧
    (Pull.lowStockItems [itemA, itemB]).length = 1 := by
  constructor
  · intro inventory
    simp [Pull.lowStockItems, List.countP_eq_length_filter]
  · decide

/-- Claim C10: when all three GETs succeed but a decoded body is null
(falsy), the corresponding slot is replaced with the empty array
regardless of its previous snapshot — holds for each of the three
resources. -/
theorem c10_null_body_empties_slot :
    (∀ (s : Pull.State) (poB : Option (List PurchaseOrder))
        (slaB : Option (List SLAViolation)),
        (Pull.fetchDashboardData s (FetchOutcome.ok none)
            (FetchOutcome.ok poB) (FetchOutcome.ok slaB)).1.inventory = []) ∧
    (∀ (s : Pull.State) (invB : Option (List InventoryItem))
        (slaB : Option (List SLAViolation)),
        (Pull.fetchDashboardData s (FetchOutcome.ok invB)
            (FetchOutcome.ok none) (FetchOutcome.ok slaB)).1.purchaseOrders
          = []) ∧
    (∀ (s : Pull.State) (invB : Option (List InventoryItem))
        (poB : Option (List PurchaseOrder)),
        (Pull.fetchDashboardData s (FetchOutcome.ok invB)
            (FetchOutcome.ok poB) (FetchOutcome.ok none)).1.slaViolations
          = []) :=
  ⟨fun _ _ _ => rfl, fun _ _ _ => rfl, fun _ _ _ => rfl⟩
